import Mathlib

/-!
Verification of the Transaction Replay & Source-Mapped Fault Diagnosis
pipeline of the `hintents` simulator (`src/simulator/src/main.rs`).

The pipeline is embedded shallowly: external library calls (JSON parsing,
base64 decoding, XDR schema parsing, the soroban execution host) are
abstracted as fields of an `Ext` record of injected functions, while every
branch, message and ordering decision of `main.rs` itself is translated
directly.  The repository's `source_mapper` module is referenced by
`main.rs` but its source file is not part of the repository snapshot; its
query operations are modelled from the specification (section 4.3) and
marked as such.
-/

deriving instance DecidableEq for Except

namespace Hintents

/-- Argument bundle of the `InvokeContract` host function
(`soroban_env_host::xdr::InvokeContractArgs`).  The contract address and
function name are opaque to `main.rs`, which only renders them with the
`Debug` formatter; the strings stored here stand for those renderings.
Argument values are opaque; only their count is observed. -/
structure InvokeContractArgs where
  contract_address : String
  function_name : String
  args : List String
deriving DecidableEq

/-- The host-function discriminant inside an `InvokeHostFunctionOp`.
`main.rs` matches only the `InvokeContract` constructor; every other
constructor (`CreateContract`, `UploadContractWasm`, ...) falls into the
wildcard arm, modelled by `otherHostFunction` with an opaque tag. -/
inductive HostFunction where
  | invokeContract (invoke_args : InvokeContractArgs)
  | otherHostFunction (tag : String)
deriving DecidableEq

/-- Operation body: `main.rs` matches only `InvokeHostFunction`; all other
operation kinds (payments, account ops, ...) fall through the `if let`
and are modelled by `otherBody` with an opaque tag. -/
inductive OperationBody where
  | invokeHostFunction (host_fn : HostFunction)
  | otherBody (tag : String)
deriving DecidableEq

/-- One operation of a transaction.  Fields of the XDR `Operation` that
`main.rs` never reads (the source account) are elided. -/
structure Operation where
  body : OperationBody
deriving DecidableEq

/-- A transaction; only its ordered operation list is read by `main.rs`. -/
structure Transaction where
  operations : List Operation
deriving DecidableEq

/-- The legacy V0 transaction form; only its operation list is read. -/
structure TransactionV0 where
  operations : List Operation
deriving DecidableEq

/-- `TransactionV1Envelope`: a signed transaction (signatures elided,
never read by `main.rs`). -/
structure TransactionV1Envelope where
  tx : Transaction
deriving DecidableEq

/-- `TransactionV0Envelope`: an unsigned legacy transaction. -/
structure TransactionV0Envelope where
  tx : TransactionV0
deriving DecidableEq

/-- `FeeBumpTransactionInnerTx` has exactly one constructor in the XDR
schema: the inner transaction of a fee bump is always a signed V1
envelope, so fee bumps cannot nest. -/
inductive FeeBumpTransactionInnerTx where
  | tx (v : TransactionV1Envelope)
deriving DecidableEq

/-- `FeeBumpTransaction`; only the inner transaction is read. -/
structure FeeBumpTransaction where
  inner_tx : FeeBumpTransactionInnerTx
deriving DecidableEq

/-- `FeeBumpTransactionEnvelope` (signatures elided). -/
structure FeeBumpTransactionEnvelope where
  tx : FeeBumpTransaction
deriving DecidableEq

/-- `soroban_env_host::xdr::TransactionEnvelope`: the three envelope
variants matched at `main.rs:171-177`. -/
inductive TransactionEnvelope where
  | txV0 (v : TransactionV0Envelope)
  | tx (v : TransactionV1Envelope)
  | txFeeBump (v : FeeBumpTransactionEnvelope)
deriving DecidableEq

/-- Modelled from the spec: one record of the debug-symbol table,
`SymbolRange { start_offset, end_offset (exclusive, optional - open-ended
if absent), file, line, column? }`. -/
structure SymbolRange where
  start_offset : Nat
  end_offset : Option Nat
  file : String
  line : Nat
  column : Option Nat
deriving DecidableEq

/-- `SourceLocation { file, line, column? }` as produced by the source
mapper and serialized into the response. -/
structure SourceLocation where
  file : String
  line : Nat
  column : Option Nat
deriving DecidableEq

/-- The incoming request (`SimulationRequest` in `main.rs`).  The
`ledger_entries` HashMap is modelled as an association list in the
(unspecified) iteration order of the map. -/
structure SimulationRequest where
  envelope_xdr : String
  result_meta_xdr : String
  ledger_entries : Option (List (String × String))
  contract_wasm : Option String
deriving DecidableEq

/-- The outgoing response (`SimulationResponse` in `main.rs`). -/
structure SimulationResponse where
  status : String
  error : Option String
  events : List String
  logs : List String
  source_location : Option SourceLocation
deriving DecidableEq

/-- External collaborators of `main.rs`, injected as pure functions:
`serde_json::from_str`, `base64 STANDARD.decode`, the four XDR schema
parsers, the source mapper's table construction from module bytes, and
the execution host (`budget_cloned`'s Debug rendering, `get_events`
pre-rendered with the Debug formatter, and the host's `invoke` capability,
which `main.rs` never exercises - its call site is commented out). -/
structure Ext where
  parse_json : String → Except String SimulationRequest
  b64decode : String → Except String (List Nat)
  envelope_from_xdr : List Nat → Except String TransactionEnvelope
  result_meta_from_xdr : List Nat → Except String Unit
  ledger_key_from_xdr : List Nat → Except String String
  ledger_entry_from_xdr : List Nat → Except String String
  build_mapper : List Nat → List SymbolRange
  budget_debug : String
  get_events : Except String (List String)
  host_invoke : String → String → List String → Except Nat Unit

/-- Modelled from the spec: `has_debug_symbols() -> bool` is true iff the
debug-symbol table is non-empty. -/
def has_debug_symbols (table : List SymbolRange) : Bool :=
  !table.isEmpty

/-- Modelled from the spec: offset containment in one symbol range -
`[start_offset, end_offset)`, open-ended when `end_offset` is absent. -/
def range_matches (r : SymbolRange) (offset : Nat) : Bool :=
  decide (r.start_offset ≤ offset) &&
    (match r.end_offset with
     | some e => decide (offset < e)
     | none => true)

/-- Modelled from the spec: `resolve(offset) -> Option<SourceLocation>`
(called `map_wasm_offset_to_source` at its use site in `main.rs`): among
the ranges containing `offset`, the one with the largest `start_offset`
not exceeding `offset` wins; absent when no range contains `offset`. -/
def map_wasm_offset_to_source (table : List SymbolRange) (offset : Nat) :
    Option SourceLocation :=
  match (table.filter (fun r => range_matches r offset)).foldl
      (fun best r =>
        match best with
        | none => some r
        | some b => if b.start_offset ≤ r.start_offset then some r else some b)
      none with
  | some r => some { file := r.file, line := r.line, column := r.column }
  | none => none

/-- `send_error_with_location` (`main.rs:268-277`): an error response with
empty `events` and `logs`. -/
def send_error_with_location (msg : String) (source_location : Option SourceLocation) :
    SimulationResponse :=
  { status := "error", error := some msg, events := [], logs := [],
    source_location := source_location }

/-- `send_error` (`main.rs:264-266`). -/
def send_error (msg : String) : SimulationResponse :=
  send_error_with_location msg none

/-- ResultMeta decoding (`main.rs:84-103`): an empty string, and a base64
failure, are warnings that continue with empty storage; only an XDR
schema failure is fatal. -/
def decode_result_meta (ext : Ext) (result_meta_xdr : String) : Except String Unit :=
  if result_meta_xdr.isEmpty then
    .ok ()
  else
    match ext.b64decode result_meta_xdr with
    | .ok bs =>
      match ext.result_meta_from_xdr bs with
      | .ok _ => .ok ()
      | .error e => .error ("Failed to parse ResultMeta XDR: " ++ e)
    | .error _ => .ok ()

/-- Source-mapper initialization (`main.rs:106-125`): a base64 failure of
the WASM is a warning that continues without a mapper; a mapper without
debug symbols is dropped. -/
def init_source_mapper (ext : Ext) (contract_wasm : Option String) :
    Option (List SymbolRange) :=
  match contract_wasm with
  | some wasm_base64 =>
    match ext.b64decode wasm_base64 with
    | .ok wasm_bytes =>
      let mapper := ext.build_mapper wasm_bytes
      if has_debug_symbols mapper then some mapper else none
    | .error _ => none
  | none => none

/-- Decoding of one (key, entry) ledger pair (`main.rs:136-159`): key
base64, key XDR, entry base64, entry XDR, in that order, each failure
fatal with its own message. -/
def decode_pair (ext : Ext) (p : String × String) : Except String Unit :=
  match ext.b64decode p.1 with
  | .error e => .error ("Failed to decode LedgerKey Base64: " ++ e)
  | .ok b =>
    match ext.ledger_key_from_xdr b with
    | .error e => .error ("Failed to parse LedgerKey XDR: " ++ e)
    | .ok _ =>
      match ext.b64decode p.2 with
      | .error e => .error ("Failed to decode LedgerEntry Base64: " ++ e)
      | .ok b2 =>
        match ext.ledger_entry_from_xdr b2 with
        | .error e => .error ("Failed to parse LedgerEntry XDR: " ++ e)
        | .ok _ => .ok ()

/-- The ledger-entry loop (`main.rs:132-166`): decode each pair in
iteration order, abort on the first failure, count successes.  Entries
are parsed but not injected into host storage (the `TODO` at
`main.rs:161`). -/
def load_ledger_entries (ext : Ext) (count : Nat) :
    List (String × String) → Except String Nat
  | [] => .ok count
  | p :: rest =>
    match decode_pair ext p with
    | .error msg => .error msg
    | .ok _ => load_ledger_entries ext (count + 1) rest

/-- Operation extraction (`main.rs:171-177`): the operation list of
whichever envelope variant is present; a fee bump is unwrapped one level
to its inner signed transaction. -/
def extract_operations : TransactionEnvelope → List Operation
  | .tx tx_v1 => tx_v1.tx.operations
  | .txV0 tx_v0 => tx_v0.tx.operations
  | .txFeeBump bump =>
    match bump.tx.inner_tx with
    | .tx tx_v1 => tx_v1.tx.operations

/-- The three trace lines pushed for an `InvokeContract` operation
(`main.rs:191-193`). -/
def trace_lines (invoke_args : InvokeContractArgs) : List String :=
  ["About to Invoke Contract: " ++ invoke_args.contract_address,
   "Function: " ++ invoke_args.function_name,
   "Args Count: " ++ toString invoke_args.args.length]

/-- The fault message built at `main.rs:207-210`. -/
def fault_message (location : SourceLocation) : String :=
  "Contract execution failed. Failed at line " ++ toString location.line ++
    " in " ++ location.file

/-- The operation loop (`main.rs:180-223`).  For each `InvokeContract`
operation it pushes the three trace lines, then, when a source mapper is
present, probes the hard-coded offset `0x1234`; a resolved location ends
the whole run with a located fault (the accumulated logs at that point
are carried in the error but discarded by `send_error_with_location`).
`InvokeHostFunction` operations of other kinds push a skip line; other
operation bodies fall through the `if let` silently. -/
def dispatch_ops (source_mapper : Option (List SymbolRange))
    (invocation_logs : List String) :
    List Operation → Except (List String × String × SourceLocation) (List String)
  | [] => .ok invocation_logs
  | op :: rest =>
    match op.body with
    | .invokeHostFunction host_fn =>
      match host_fn with
      | .invokeContract invoke_args =>
        let logs := invocation_logs ++ trace_lines invoke_args
        match source_mapper with
        | some mapper =>
          match map_wasm_offset_to_source mapper 0x1234 with
          | some location => .error (logs, fault_message location, location)
          | none => dispatch_ops source_mapper logs rest
        | none => dispatch_ops source_mapper logs rest
      | .otherHostFunction _ =>
        dispatch_ops source_mapper
          (invocation_logs ++ ["Skipping non-InvokeContract Host Function"]) rest
    | .otherBody _ => dispatch_ops source_mapper invocation_logs rest

/-- The tail of `main` after envelope and result-meta decoding
(`main.rs:106-261`): mapper initialization, ledger loading, dispatch,
event capture and the success response. -/
def simulate_decoded (ext : Ext) (request : SimulationRequest)
    (envelope : TransactionEnvelope) : SimulationResponse :=
  let source_mapper := init_source_mapper ext request.contract_wasm
  match load_ledger_entries ext 0 (request.ledger_entries.getD []) with
  | .error msg => send_error msg
  | .ok loaded_entries_count =>
    match dispatch_ops source_mapper [] (extract_operations envelope) with
    | .error (_, msg, location) => send_error_with_location msg (some location)
    | .ok invocation_logs =>
      { status := "success"
        error := none
        events :=
          match ext.get_events with
          | .ok evs => evs
          | .error e => ["Failed to retrieve events: " ++ e]
        logs :=
          ("Host Initialized with Budget: " ++ ext.budget_debug) ::
            ("Loaded " ++ toString loaded_entries_count ++ " Ledger Entries") ::
              invocation_logs
        source_location := none }

/-- `main` from envelope decoding onward (`main.rs:67-261`). -/
def simulate (request : SimulationRequest) (ext : Ext) : SimulationResponse :=
  match ext.b64decode request.envelope_xdr with
  | .error e => send_error ("Failed to decode Envelope Base64: " ++ e)
  | .ok bs =>
    match ext.envelope_from_xdr bs with
    | .error e => send_error ("Failed to parse Envelope XDR: " ++ e)
    | .ok envelope =>
      match decode_result_meta ext request.result_meta_xdr with
      | .error msg => send_error msg
      | .ok _ => simulate_decoded ext request envelope

/-- Request parsing (`main.rs:52-65`): a JSON failure yields the
`Invalid JSON` response with empty events and logs. -/
def process_buffer (buffer : String) (ext : Ext) : SimulationResponse :=
  match ext.parse_json buffer with
  | .error e =>
    { status := "error", error := some ("Invalid JSON: " ++ e),
      events := [], logs := [], source_location := none }
  | .ok request => simulate request ext

/-- The whole of `main` (`main.rs:43-262`): a stdin read failure prints to
stderr and returns without emitting any response (`main.rs:46-49`);
otherwise exactly one response is emitted. -/
def run_main (stdin : Except String String) (ext : Ext) : Option SimulationResponse :=
  match stdin with
  | .error _ => none
  | .ok buffer => some (process_buffer buffer ext)

/-! Concrete fixtures used by witnesses and counterexamples. -/

/-- Debug-style byte rendering of a short ASCII tag, standing for the raw
bytes a base64 text decodes to. -/
def bytes_of (s : String) : List Nat := s.toList.map Char.toNat

def invA : InvokeContractArgs :=
  { contract_address := "Contract(abc123)", function_name := "transfer",
    args := ["1", "2"] }

def opInvoke : Operation := ⟨.invokeHostFunction (.invokeContract invA)⟩

def opUpload : Operation := ⟨.invokeHostFunction (.otherHostFunction "UploadContractWasm")⟩

def opPayment : Operation := ⟨.otherBody "Payment"⟩

def envZero : TransactionEnvelope := .tx ⟨⟨[]⟩⟩

def envInvoke : TransactionEnvelope := .tx ⟨⟨[opInvoke]⟩⟩

def envPay : TransactionEnvelope := .tx ⟨⟨[opPayment]⟩⟩

def envMixed : TransactionEnvelope := .tx ⟨⟨[opPayment, opUpload]⟩⟩

def tableA : List SymbolRange :=
  [{ start_offset := 0x1000, end_offset := some 0x2000, file := "lib.rs",
     line := 42, column := none }]

def locA : SourceLocation := { file := "lib.rs", line := 42, column := none }

def reqZero : SimulationRequest := ⟨"envZero", "", none, none⟩

def reqFault : SimulationRequest := ⟨"envInvoke", "", none, some "wasmDbg"⟩

def reqInvokeNoWasm : SimulationRequest := ⟨"envInvoke", "", none, none⟩

def reqPay : SimulationRequest := ⟨"envPay", "", none, none⟩

def reqBadWasm : SimulationRequest := ⟨"envZero", "", none, some "!!!"⟩

def reqBadEnv : SimulationRequest := ⟨"!!!", "", none, none⟩

def reqBadKey : SimulationRequest :=
  ⟨"envZero", "", some [("key1", "entry1"), ("!!!", "entry1")], none⟩

def reqMixed : SimulationRequest := ⟨"envMixed", "", none, none⟩

/-- A concrete collaborator bundle: base64 decoding fails exactly on the
text `!!!`, the XDR parsers recognize a handful of byte strings, and the
mapper parses the module tagged `wasmDbg` into `tableA`. -/
def extA : Ext :=
  { parse_json := fun s =>
      if s = "reqZero" then .ok reqZero
      else if s = "reqFault" then .ok reqFault
      else .error "expected value at line 1 column 1"
    b64decode := fun s =>
      if s = "!!!" then .error "Invalid symbol 33, offset 0." else .ok (bytes_of s)
    envelope_from_xdr := fun bs =>
      if bs = bytes_of "envZero" then .ok envZero
      else if bs = bytes_of "envInvoke" then .ok envInvoke
      else if bs = bytes_of "envPay" then .ok envPay
      else if bs = bytes_of "envMixed" then .ok envMixed
      else .error "xdr value invalid"
    result_meta_from_xdr := fun bs =>
      if bs = bytes_of "meta" then .ok () else .error "xdr value invalid"
    ledger_key_from_xdr := fun bs =>
      if bs = bytes_of "key1" then .ok "K1" else .error "xdr value invalid"
    ledger_entry_from_xdr := fun bs =>
      if bs = bytes_of "entry1" then .ok "E1" else .error "xdr value invalid"
    build_mapper := fun bs => if bs = bytes_of "wasmDbg" then tableA else []
    budget_debug := "Budget"
    get_events := .ok []
    host_invoke := fun _ _ _ => .ok () }

/-! Vocabulary used to state the claims. -/

/-- An operation is a contract invocation when its body is
`InvokeHostFunction` carrying the `InvokeContract` host function. -/
def is_invoke_contract_op (op : Operation) : Bool :=
  match op.body with
  | .invokeHostFunction (.invokeContract _) => true
  | _ => false

/-- The log line, if any, that the dispatcher records for an operation it
does not invoke: only `InvokeHostFunction` operations of another
host-function kind get a skip line; other operation bodies fall through
the dispatcher's `if let` with no line at all. -/
def skip_line (op : Operation) : Option String :=
  match op.body with
  | .invokeHostFunction (.invokeContract _) => none
  | .invokeHostFunction (.otherHostFunction _) =>
    some "Skipping non-InvokeContract Host Function"
  | .otherBody _ => none

/-! Structural lemmas about the dispatcher loop. -/

/-- A successful dispatch only ever extends the accumulated log list. -/
theorem dispatch_ops_ok_extends (m : Option (List SymbolRange)) (ops : List Operation) :
    ∀ acc ls, dispatch_ops m acc ops = .ok ls → ∃ t, ls = acc ++ t := by
  induction ops with
  | nil =>
    intro acc ls h
    simp only [dispatch_ops, Except.ok.injEq] at h
    exact ⟨[], by simp [h]⟩
  | cons op rest ih =>
    intro acc ls h
    obtain ⟨body⟩ := op
    cases body with
    | invokeHostFunction host_fn =>
      cases host_fn with
      | invokeContract ia =>
        cases hm : m with
        | some mapper =>
          subst hm
          cases hr : map_wasm_offset_to_source mapper 0x1234 with
          | some loc =>
            simp [dispatch_ops, hr] at h
          | none =>
            simp only [dispatch_ops, hr] at h
            obtain ⟨t, ht⟩ := ih _ _ h
            exact ⟨trace_lines ia ++ t, by simp [ht]⟩
        | none =>
          subst hm
          simp only [dispatch_ops] at h
          obtain ⟨t, ht⟩ := ih _ _ h
          exact ⟨trace_lines ia ++ t, by simp [ht]⟩
      | otherHostFunction tag =>
        simp only [dispatch_ops] at h
        obtain ⟨t, ht⟩ := ih _ _ h
        exact ⟨"Skipping non-InvokeContract Host Function" :: t, by simp [ht]⟩
    | otherBody tag =>
      simp only [dispatch_ops] at h
      exact ih _ _ h

/-- A dispatch fault is always a located fault: its message is the fault
message of its location, and the location is the resolution of the
hard-coded offset `0x1234` through the present mapper. -/
theorem dispatch_ops_error_resolved (m : Option (List SymbolRange)) (ops : List Operation) :
    ∀ acc acc2 msg loc, dispatch_ops m acc ops = .error (acc2, msg, loc) →
      msg = fault_message loc ∧
        ∃ table, m = some table ∧
          map_wasm_offset_to_source table 0x1234 = some loc := by
  induction ops with
  | nil =>
    intro acc acc2 msg loc h
    simp [dispatch_ops] at h
  | cons op rest ih =>
    intro acc acc2 msg loc h
    obtain ⟨body⟩ := op
    cases body with
    | invokeHostFunction host_fn =>
      cases host_fn with
      | invokeContract ia =>
        cases hm : m with
        | some mapper =>
          subst hm
          cases hr : map_wasm_offset_to_source mapper 0x1234 with
          | some loc2 =>
            simp only [dispatch_ops, hr, Except.error.injEq, Prod.mk.injEq] at h
            obtain ⟨-, h2, h3⟩ := h
            subst h3
            exact ⟨h2.symm, mapper, rfl, hr⟩
          | none =>
            simp only [dispatch_ops, hr] at h
            exact ih _ _ _ _ h
        | none =>
          subst hm
          simp only [dispatch_ops] at h
          exact ih _ _ _ _ h
      | otherHostFunction tag =>
        simp only [dispatch_ops] at h
        exact ih _ _ _ _ h
    | otherBody tag =>
      simp only [dispatch_ops] at h
      exact ih _ _ _ _ h

/-- Every `InvokeContract` operation of a successfully dispatched list has
its three trace lines in the produced log list, as a contiguous block. -/
theorem dispatch_ops_ok_trace (m : Option (List SymbolRange)) (ops : List Operation) :
    ∀ acc ls, dispatch_ops m acc ops = .ok ls →
      ∀ op ∈ ops, ∀ ia, op.body = .invokeHostFunction (.invokeContract ia) →
        ∃ s t, ls = s ++ trace_lines ia ++ t := by
  induction ops with
  | nil =>
    intro acc ls _ op hop
    simp at hop
  | cons op0 rest ih =>
    intro acc ls h op hop ia hbody
    rcases List.mem_cons.mp hop with rfl | hmem
    · cases hm : m with
      | some mapper =>
        subst hm
        cases hr : map_wasm_offset_to_source mapper 0x1234 with
        | some loc =>
          simp [dispatch_ops, hbody, hr] at h
        | none =>
          simp only [dispatch_ops, hbody, hr] at h
          obtain ⟨t, ht⟩ := dispatch_ops_ok_extends _ _ _ _ h
          exact ⟨acc, t, by simp [ht]⟩
      | none =>
        subst hm
        simp only [dispatch_ops, hbody] at h
        obtain ⟨t, ht⟩ := dispatch_ops_ok_extends _ _ _ _ h
        exact ⟨acc, t, by simp [ht]⟩
    · obtain ⟨body⟩ := op0
      cases body with
      | invokeHostFunction host_fn =>
        cases host_fn with
        | invokeContract ia0 =>
          cases hm : m with
          | some mapper =>
            subst hm
            cases hr : map_wasm_offset_to_source mapper 0x1234 with
            | some loc =>
              simp [dispatch_ops, hr] at h
            | none =>
              simp only [dispatch_ops, hr] at h
              exact ih _ _ h op hmem ia hbody
          | none =>
            subst hm
            simp only [dispatch_ops] at h
            exact ih _ _ h op hmem ia hbody
        | otherHostFunction tag =>
          simp only [dispatch_ops] at h
          exact ih _ _ h op hmem ia hbody
      | otherBody tag =>
        simp only [dispatch_ops] at h
        exact ih _ _ h op hmem ia hbody

/-- A list with no `InvokeContract` operation dispatches cleanly: no
fault, and the log grows by exactly the skip lines of the
`InvokeHostFunction` operations of other kinds. -/
theorem dispatch_ops_no_invoke (m : Option (List SymbolRange)) (ops : List Operation) :
    ∀ acc, (∀ op ∈ ops, is_invoke_contract_op op = false) →
      dispatch_ops m acc ops = .ok (acc ++ ops.filterMap skip_line) := by
  induction ops with
  | nil =>
    intro acc _
    simp [dispatch_ops]
  | cons op rest ih =>
    intro acc hall
    obtain ⟨body⟩ := op
    cases body with
    | invokeHostFunction host_fn =>
      cases host_fn with
      | invokeContract ia =>
        have hhead := hall _ (List.mem_cons_self _ _)
        simp [is_invoke_contract_op] at hhead
      | otherHostFunction tag =>
        simp only [dispatch_ops]
        rw [ih _ (fun op2 h2 => hall op2 (List.mem_cons_of_mem _ h2))]
        simp [skip_line]
    | otherBody tag =>
      simp only [dispatch_ops]
      rw [ih _ (fun op2 h2 => hall op2 (List.mem_cons_of_mem _ h2))]
      simp [skip_line]

/-- When the probe offset resolves, dispatching a list containing an
`InvokeContract` operation faults with the fault message of the resolved
location. -/
theorem dispatch_ops_probe_error (table : List SymbolRange) (ops : List Operation) :
    ∀ acc loc, (∃ op ∈ ops, is_invoke_contract_op op = true) →
      map_wasm_offset_to_source table 0x1234 = some loc →
      ∃ acc2, dispatch_ops (some table) acc ops =
        .error (acc2, fault_message loc, loc) := by
  induction ops with
  | nil =>
    intro acc loc hex _
    simp at hex
  | cons op rest ih =>
    intro acc loc hex hr
    obtain ⟨body⟩ := op
    cases body with
    | invokeHostFunction host_fn =>
      cases host_fn with
      | invokeContract ia =>
        exact ⟨acc ++ trace_lines ia, by simp only [dispatch_ops, hr]⟩
      | otherHostFunction tag =>
        have hex2 : ∃ op2 ∈ rest, is_invoke_contract_op op2 = true := by
          rcases hex with ⟨op2, hmem, hop2⟩
          rcases List.mem_cons.mp hmem with rfl | hm2
          · simp [is_invoke_contract_op] at hop2
          · exact ⟨op2, hm2, hop2⟩
        obtain ⟨acc2, h2⟩ :=
          ih (acc ++ ["Skipping non-InvokeContract Host Function"]) loc hex2 hr
        exact ⟨acc2, by simp only [dispatch_ops]; exact h2⟩
    | otherBody tag =>
      have hex2 : ∃ op2 ∈ rest, is_invoke_contract_op op2 = true := by
        rcases hex with ⟨op2, hmem, hop2⟩
        rcases List.mem_cons.mp hmem with rfl | hm2
        · simp [is_invoke_contract_op] at hop2
        · exact ⟨op2, hm2, hop2⟩
      obtain ⟨acc2, h2⟩ := ih acc loc hex2 hr
      exact ⟨acc2, by simp only [dispatch_ops]; exact h2⟩

/-- When the probe offset does not resolve, dispatch never faults. -/
theorem dispatch_ops_probe_none (table : List SymbolRange) (ops : List Operation)
    (acc : List String) (hr : map_wasm_offset_to_source table 0x1234 = none) :
    ∃ ls, dispatch_ops (some table) acc ops = .ok ls := by
  cases h : dispatch_ops (some table) acc ops with
  | ok ls => exact ⟨ls, rfl⟩
  | error err =>
    obtain ⟨acc2, msg, loc⟩ := err
    obtain ⟨-, table2, htab, hres⟩ := dispatch_ops_error_resolved _ _ _ _ _ _ h
    rw [Option.some.injEq] at htab
    rw [htab] at hr
    rw [hr] at hres
    exact absurd hres (by simp)

/-! Structural lemmas about the ledger-entry loop. -/

/-- A ledger-load failure is the decode failure of one of the pairs. -/
theorem load_ledger_entries_error_mem (ext : Ext) (pairs : List (String × String)) :
    ∀ c msg, load_ledger_entries ext c pairs = .error msg →
      ∃ p ∈ pairs, decode_pair ext p = .error msg := by
  induction pairs with
  | nil =>
    intro c msg h
    simp [load_ledger_entries] at h
  | cons p rest ih =>
    intro c msg h
    cases hd : decode_pair ext p with
    | error m2 =>
      simp only [load_ledger_entries, hd, Except.error.injEq] at h
      exact ⟨p, List.mem_cons_self _ _, by rw [hd, h]⟩
    | ok u =>
      simp only [load_ledger_entries, hd] at h
      obtain ⟨q, hq, hqe⟩ := ih _ _ h
      exact ⟨q, List.mem_cons_of_mem _ hq, hqe⟩

/-- The loop walks past successfully decoding pairs, counting them. -/
theorem load_ledger_entries_ok_skip (ext : Ext) (good : List (String × String)) :
    ∀ c rest, (∀ q ∈ good, decode_pair ext q = .ok ()) →
      load_ledger_entries ext c (good ++ rest) =
        load_ledger_entries ext (c + good.length) rest := by
  induction good with
  | nil =>
    intro c rest _
    simp
  | cons p good2 ih =>
    intro c rest hall
    have hp := hall p (List.mem_cons_self _ _)
    simp only [List.cons_append, load_ledger_entries, hp, List.append_eq]
    rw [ih _ _ (fun q h2 => hall q (List.mem_cons_of_mem _ h2))]
    congr 1
    simp only [List.length_cons]
    omega

/-- Every pair-decode failure message names the failing artifact (ledger
key or ledger entry, base64 or schema) and carries the decoder's reason. -/
theorem decode_pair_error_shape (ext : Ext) (p : String × String) (msg : String)
    (h : decode_pair ext p = .error msg) :
    (∃ e, msg = "Failed to decode LedgerKey Base64: " ++ e) ∨
    (∃ e, msg = "Failed to parse LedgerKey XDR: " ++ e) ∨
    (∃ e, msg = "Failed to decode LedgerEntry Base64: " ++ e) ∨
    (∃ e, msg = "Failed to parse LedgerEntry XDR: " ++ e) := by
  unfold decode_pair at h
  cases h1 : ext.b64decode p.1 with
  | error e =>
    simp only [h1, Except.error.injEq] at h
    exact .inl ⟨e, h.symm⟩
  | ok b =>
    simp only [h1] at h
    cases h2 : ext.ledger_key_from_xdr b with
    | error e =>
      simp only [h2, Except.error.injEq] at h
      exact .inr (.inl ⟨e, h.symm⟩)
    | ok k =>
      simp only [h2] at h
      cases h3 : ext.b64decode p.2 with
      | error e =>
        simp only [h3, Except.error.injEq] at h
        exact .inr (.inr (.inl ⟨e, h.symm⟩))
      | ok b2 =>
        simp only [h3] at h
        cases h4 : ext.ledger_entry_from_xdr b2 with
        | error e =>
          simp only [h4, Except.error.injEq] at h
          exact .inr (.inr (.inr ⟨e, h.symm⟩))
        | ok v =>
          simp only [h4] at h
          exact absurd h (by simp)

/-- The only fatal result-meta failure is a schema failure, with its
message. -/
theorem decode_result_meta_error_shape (ext : Ext) (s msg : String)
    (h : decode_result_meta ext s = .error msg) :
    ∃ e, msg = "Failed to parse ResultMeta XDR: " ++ e := by
  unfold decode_result_meta at h
  split at h
  · exact absurd h (by simp)
  · cases h1 : ext.b64decode s with
    | error e =>
      simp only [h1] at h
      exact absurd h (by simp)
    | ok bs =>
      simp only [h1] at h
      cases h2 : ext.result_meta_from_xdr bs with
      | error e =>
        simp only [h2, Except.error.injEq] at h
        exact ⟨e, h.symm⟩
      | ok u =>
        simp only [h2] at h
        exact absurd h (by simp)

/-! Unfolding lemmas for the pipeline. -/

theorem simulate_env_b64_error (request : SimulationRequest) (ext : Ext) (e : String)
    (h : ext.b64decode request.envelope_xdr = .error e) :
    simulate request ext = send_error ("Failed to decode Envelope Base64: " ++ e) := by
  simp only [simulate, h]

theorem simulate_env_xdr_error (request : SimulationRequest) (ext : Ext)
    (bs : List Nat) (e : String)
    (hb : ext.b64decode request.envelope_xdr = .ok bs)
    (he : ext.envelope_from_xdr bs = .error e) :
    simulate request ext = send_error ("Failed to parse Envelope XDR: " ++ e) := by
  simp only [simulate, hb, he]

theorem simulate_meta_error (request : SimulationRequest) (ext : Ext)
    (bs : List Nat) (env : TransactionEnvelope) (msg : String)
    (hb : ext.b64decode request.envelope_xdr = .ok bs)
    (he : ext.envelope_from_xdr bs = .ok env)
    (hm : decode_result_meta ext request.result_meta_xdr = .error msg) :
    simulate request ext = send_error msg := by
  simp only [simulate, hb, he, hm]

theorem simulate_eq_decoded (request : SimulationRequest) (ext : Ext)
    (bs : List Nat) (env : TransactionEnvelope)
    (hb : ext.b64decode request.envelope_xdr = .ok bs)
    (he : ext.envelope_from_xdr bs = .ok env)
    (hm : decode_result_meta ext request.result_meta_xdr = .ok ()) :
    simulate request ext = simulate_decoded ext request env := by
  simp only [simulate, hb, he, hm]

theorem simulate_decoded_ledger_error (ext : Ext) (request : SimulationRequest)
    (env : TransactionEnvelope) (msg : String)
    (hl : load_ledger_entries ext 0 (request.ledger_entries.getD []) = .error msg) :
    simulate_decoded ext request env = send_error msg := by
  simp only [simulate_decoded, hl]

theorem simulate_decoded_dispatch_error (ext : Ext) (request : SimulationRequest)
    (env : TransactionEnvelope) (n : Nat) (acc : List String) (msg : String)
    (loc : SourceLocation)
    (hl : load_ledger_entries ext 0 (request.ledger_entries.getD []) = .ok n)
    (hd : dispatch_ops (init_source_mapper ext request.contract_wasm) []
        (extract_operations env) = .error (acc, msg, loc)) :
    simulate_decoded ext request env = send_error_with_location msg (some loc) := by
  simp only [simulate_decoded, hl, hd]

theorem simulate_decoded_success (ext : Ext) (request : SimulationRequest)
    (env : TransactionEnvelope) (n : Nat) (ls : List String)
    (hl : load_ledger_entries ext 0 (request.ledger_entries.getD []) = .ok n)
    (hd : dispatch_ops (init_source_mapper ext request.contract_wasm) []
        (extract_operations env) = .ok ls) :
    simulate_decoded ext request env =
      { status := "success"
        error := none
        events :=
          match ext.get_events with
          | .ok evs => evs
          | .error e => ["Failed to retrieve events: " ++ e]
        logs :=
          ("Host Initialized with Budget: " ++ ext.budget_debug) ::
            ("Loaded " ++ toString n ++ " Ledger Entries") :: ls
        source_location := none } := by
  simp only [simulate_decoded, hl, hd]

/-! The host's `invoke` capability is dead in `main.rs` (its call site is
commented out), so the whole response is independent of it. -/

theorem decode_pair_host_invoke (ext : Ext) (f) (p : String × String) :
    decode_pair {ext with host_invoke := f} p = decode_pair ext p := rfl

theorem load_ledger_entries_host_invoke (ext : Ext) (f)
    (pairs : List (String × String)) (c : Nat) :
    load_ledger_entries {ext with host_invoke := f} c pairs =
      load_ledger_entries ext c pairs := by
  induction pairs generalizing c with
  | nil => rfl
  | cons p rest ih =>
    rw [load_ledger_entries, load_ledger_entries, decode_pair_host_invoke]
    cases decode_pair ext p with
    | error m => rfl
    | ok u => exact ih _

theorem simulate_decoded_host_invoke (ext : Ext) (f) (request : SimulationRequest)
    (env : TransactionEnvelope) :
    simulate_decoded {ext with host_invoke := f} request env =
      simulate_decoded ext request env := by
  rw [simulate_decoded, simulate_decoded, load_ledger_entries_host_invoke]
  rfl

theorem simulate_host_invoke (request : SimulationRequest) (ext : Ext) (f) :
    simulate request {ext with host_invoke := f} = simulate request ext := by
  have hb : ({ext with host_invoke := f} : Ext).b64decode = ext.b64decode := rfl
  have he : ({ext with host_invoke := f} : Ext).envelope_from_xdr =
      ext.envelope_from_xdr := rfl
  have hm : decode_result_meta {ext with host_invoke := f} =
      decode_result_meta ext := rfl
  cases h1 : ext.b64decode request.envelope_xdr with
  | error e =>
    rw [simulate_env_b64_error request _ e (by rw [hb]; exact h1),
        simulate_env_b64_error request ext e h1]
  | ok bs =>
    cases h2 : ext.envelope_from_xdr bs with
    | error e =>
      rw [simulate_env_xdr_error request _ bs e (by rw [hb]; exact h1)
            (by rw [he]; exact h2),
          simulate_env_xdr_error request ext bs e h1 h2]
    | ok env =>
      cases h3 : decode_result_meta ext request.result_meta_xdr with
      | error msg =>
        rw [simulate_meta_error request _ bs env msg (by rw [hb]; exact h1)
              (by rw [he]; exact h2) (by rw [hm]; exact h3),
            simulate_meta_error request ext bs env msg h1 h2 h3]
      | ok u =>
        cases u
        rw [simulate_eq_decoded request _ bs env (by rw [hb]; exact h1)
              (by rw [he]; exact h2) (by rw [hm]; exact h3),
            simulate_eq_decoded request ext bs env h1 h2 h3,
            simulate_decoded_host_invoke]

/-- Shape of every response produced once the JSON request parsed: either
a success with no error and no location, or an error carrying a message;
a location is attached only on the dispatch-fault path, where it is the
resolution of the probe offset through the initialized mapper. -/
theorem simulate_shape (request : SimulationRequest) (ext : Ext) :
    ((simulate request ext).status = "success" ∧ (simulate request ext).error = none ∧
      (simulate request ext).source_location = none) ∨
    ((simulate request ext).status = "error" ∧
      (∃ m, (simulate request ext).error = some m) ∧
      ((simulate request ext).source_location = none ∨
        ∃ table loc, init_source_mapper ext request.contract_wasm = some table ∧
          map_wasm_offset_to_source table 0x1234 = some loc ∧
          (simulate request ext).source_location = some loc)) := by
  cases h1 : ext.b64decode request.envelope_xdr with
  | error e =>
    rw [simulate_env_b64_error request ext e h1]
    exact .inr ⟨rfl, ⟨_, rfl⟩, .inl rfl⟩
  | ok bs =>
    cases h2 : ext.envelope_from_xdr bs with
    | error e =>
      rw [simulate_env_xdr_error request ext bs e h1 h2]
      exact .inr ⟨rfl, ⟨_, rfl⟩, .inl rfl⟩
    | ok env =>
      cases h3 : decode_result_meta ext request.result_meta_xdr with
      | error msg =>
        rw [simulate_meta_error request ext bs env msg h1 h2 h3]
        exact .inr ⟨rfl, ⟨_, rfl⟩, .inl rfl⟩
      | ok u =>
        cases u
        rw [simulate_eq_decoded request ext bs env h1 h2 h3]
        cases h4 : load_ledger_entries ext 0 (request.ledger_entries.getD []) with
        | error msg =>
          rw [simulate_decoded_ledger_error ext request env msg h4]
          exact .inr ⟨rfl, ⟨_, rfl⟩, .inl rfl⟩
        | ok n =>
          cases h5 : dispatch_ops (init_source_mapper ext request.contract_wasm) []
              (extract_operations env) with
          | error err =>
            obtain ⟨acc2, msg, loc⟩ := err
            rw [simulate_decoded_dispatch_error ext request env n acc2 msg loc h4 h5]
            obtain ⟨-, table, htab, hres⟩ := dispatch_ops_error_resolved _ _ _ _ _ _ h5
            exact .inr ⟨rfl, ⟨_, rfl⟩, .inr ⟨table, loc, htab, hres, rfl⟩⟩
          | ok ls =>
            rw [simulate_decoded_success ext request env n ls h4 h5]
            exact .inl ⟨rfl, rfl, rfl⟩

/-! Claims. -/

/-- C1 (amended): the fatal decode failures - envelope base64, envelope
schema, result-metadata schema, and any ledger key or entry (base64 or
schema) - each yield an error response whose message names the failing
artifact and carries the decoder's reason; a ledger failure surfaces the
failing pair's own error.  (Result-metadata base64 and contract-WASM
base64 failures are only warnings, see the counterexample.) -/
theorem c1_fatal_decode_failures_identified (request : SimulationRequest) (ext : Ext) :
    (∀ e, ext.b64decode request.envelope_xdr = .error e →
      simulate request ext = send_error ("Failed to decode Envelope Base64: " ++ e)) ∧
    (∀ bs e, ext.b64decode request.envelope_xdr = .ok bs →
      ext.envelope_from_xdr bs = .error e →
      simulate request ext = send_error ("Failed to parse Envelope XDR: " ++ e)) ∧
    (∀ bs env msg, ext.b64decode request.envelope_xdr = .ok bs →
      ext.envelope_from_xdr bs = .ok env →
      decode_result_meta ext request.result_meta_xdr = .error msg →
      simulate request ext = send_error msg ∧
        ∃ e, msg = "Failed to parse ResultMeta XDR: " ++ e) ∧
    (∀ bs env msg, ext.b64decode request.envelope_xdr = .ok bs →
      ext.envelope_from_xdr bs = .ok env →
      decode_result_meta ext request.result_meta_xdr = .ok () →
      load_ledger_entries ext 0 (request.ledger_entries.getD []) = .error msg →
      simulate request ext = send_error msg ∧
        (∃ p ∈ request.ledger_entries.getD [], decode_pair ext p = .error msg) ∧
        ((∃ e, msg = "Failed to decode LedgerKey Base64: " ++ e) ∨
         (∃ e, msg = "Failed to parse LedgerKey XDR: " ++ e) ∨
         (∃ e, msg = "Failed to decode LedgerEntry Base64: " ++ e) ∨
         (∃ e, msg = "Failed to parse LedgerEntry XDR: " ++ e))) := by
  refine ⟨?_, ?_, ?_, ?_⟩
  · intro e h
    exact simulate_env_b64_error request ext e h
  · intro bs e hb he
    exact simulate_env_xdr_error request ext bs e hb he
  · intro bs env msg hb he hm
    exact ⟨simulate_meta_error request ext bs env msg hb he hm,
           decode_result_meta_error_shape ext _ msg hm⟩
  · intro bs env msg hb he hm hl
    refine ⟨?_, load_ledger_entries_error_mem ext _ 0 msg hl, ?_⟩
    · rw [simulate_eq_decoded request ext bs env hb he hm]
      exact simulate_decoded_ledger_error ext request env msg hl
    · obtain ⟨p, hp, hpe⟩ := load_ledger_entries_error_mem ext _ 0 msg hl
      exact decode_pair_error_shape ext p msg hpe

/-- C1 counterexample: a request whose contract-WASM base64 is malformed
still produces a success response - the WASM base64 failure is only a
warning printed to stderr, never an error response. -/
theorem c1_counterexample_wasm_b64_nonfatal :
    extA.b64decode "!!!" = .error "Invalid symbol 33, offset 0." ∧
    reqBadWasm.contract_wasm = some "!!!" ∧
    (simulate reqBadWasm extA).status = "success" ∧
    (simulate reqBadWasm extA).error = none := by
  decide

/-- Witness for C1 at concrete requests: a bad envelope base64 and a bad
ledger-key base64 each surface their artifact-naming error. -/
theorem c1_witness :
    simulate reqBadEnv extA =
      send_error "Failed to decode Envelope Base64: Invalid symbol 33, offset 0." ∧
    simulate reqBadKey extA =
      send_error "Failed to decode LedgerKey Base64: Invalid symbol 33, offset 0." := by
  constructor
  · exact (c1_fatal_decode_failures_identified reqBadEnv extA).1 _ (by decide)
  · exact ((c1_fatal_decode_failures_identified reqBadKey extA).2.2.2
      (bytes_of "envZero") envZero _ (by decide) (by decide) (by decide) (by decide)).1

/-- C2 (amended): the dispatcher's trace lines for every `InvokeContract`
operation appear contiguously in the response logs when the run ends in
success; when the run ends in a dispatch fault, the error response
carries empty logs, so the already-recorded trace lines are dropped. -/
theorem c2_trace_lines_in_logs (request : SimulationRequest) (ext : Ext)
    (bs : List Nat) (env : TransactionEnvelope) (n : Nat)
    (hb : ext.b64decode request.envelope_xdr = .ok bs)
    (he : ext.envelope_from_xdr bs = .ok env)
    (hm : decode_result_meta ext request.result_meta_xdr = .ok ())
    (hl : load_ledger_entries ext 0 (request.ledger_entries.getD []) = .ok n) :
    (∀ ls, dispatch_ops (init_source_mapper ext request.contract_wasm) []
        (extract_operations env) = .ok ls →
      ∀ op ∈ extract_operations env, ∀ ia,
        op.body = .invokeHostFunction (.invokeContract ia) →
        ∃ s t, (simulate request ext).logs = s ++ trace_lines ia ++ t) ∧
    (∀ acc msg loc, dispatch_ops (init_source_mapper ext request.contract_wasm) []
        (extract_operations env) = .error (acc, msg, loc) →
      (simulate request ext).logs = []) := by
  constructor
  · intro ls hd op hop ia hbody
    obtain ⟨s, t, hst⟩ := dispatch_ops_ok_trace _ _ _ _ hd op hop ia hbody
    rw [simulate_eq_decoded request ext bs env hb he hm,
        simulate_decoded_success ext request env n ls hl hd]
    exact ⟨("Host Initialized with Budget: " ++ ext.budget_debug) ::
             ("Loaded " ++ toString n ++ " Ledger Entries") :: s, t, by simp [hst]⟩
  · intro acc msg loc hd
    rw [simulate_eq_decoded request ext bs env hb he hm,
        simulate_decoded_dispatch_error ext request env n acc msg loc hl hd]
    rfl

/-- C2 counterexample: a faulting run on an envelope with an
`InvokeContract` operation emits an error response whose logs are the
empty sequence - the trace lines do not appear. -/
theorem c2_counterexample_fault_drops_trace :
    extract_operations envInvoke = [opInvoke] ∧
    opInvoke.body = .invokeHostFunction (.invokeContract invA) ∧
    (simulate reqFault extA).status = "error" ∧
    (simulate reqFault extA).logs = [] := by
  decide

/-- Witness for C2 at a concrete successful run with one `InvokeContract`
operation: its trace lines appear in the emitted logs. -/
theorem c2_witness :
    ∃ s t, (simulate reqInvokeNoWasm extA).logs = s ++ trace_lines invA ++ t :=
  (c2_trace_lines_in_logs reqInvokeNoWasm extA (bytes_of "envInvoke") envInvoke 0
      (by decide) (by decide) (by decide) (by decide)).1
    (trace_lines invA) (by decide) opInvoke (by decide) invA (by decide)

/-- C3: whenever the dispatch fault's offset resolves to a source
location, the response is an error whose message is exactly
the line/file fault text and whose source_location is the resolved
location, which is the resolution of the probe offset. -/
theorem c3_located_fault_response (request : SimulationRequest) (ext : Ext)
    (bs : List Nat) (env : TransactionEnvelope) (n : Nat)
    (acc : List String) (msg : String) (loc : SourceLocation)
    (hb : ext.b64decode request.envelope_xdr = .ok bs)
    (he : ext.envelope_from_xdr bs = .ok env)
    (hm : decode_result_meta ext request.result_meta_xdr = .ok ())
    (hl : load_ledger_entries ext 0 (request.ledger_entries.getD []) = .ok n)
    (hd : dispatch_ops (init_source_mapper ext request.contract_wasm) []
        (extract_operations env) = .error (acc, msg, loc)) :
    simulate request ext =
      { status := "error"
        error := some ("Contract execution failed. Failed at line " ++
          toString loc.line ++ " in " ++ loc.file)
        events := [], logs := [], source_location := some loc } ∧
    ∃ table, init_source_mapper ext request.contract_wasm = some table ∧
      map_wasm_offset_to_source table 0x1234 = some loc := by
  obtain ⟨hmsg, table, htab, hres⟩ := dispatch_ops_error_resolved _ _ _ _ _ _ hd
  refine ⟨?_, table, htab, hres⟩
  rw [simulate_eq_decoded request ext bs env hb he hm,
      simulate_decoded_dispatch_error ext request env n acc msg loc hl hd, hmsg]
  rfl

/-- Witness for C3 at the concrete faulting run: the emitted error names
line 42 in lib.rs and attaches that location. -/
theorem c3_witness :
    simulate reqFault extA =
      { status := "error"
        error := some ("Contract execution failed. Failed at line " ++
          toString locA.line ++ " in " ++ locA.file)
        events := [], logs := [], source_location := some locA } ∧
    ∃ table, init_source_mapper extA reqFault.contract_wasm = some table ∧
      map_wasm_offset_to_source table 0x1234 = some locA :=
  c3_located_fault_response reqFault extA (bytes_of "envInvoke") envInvoke 0
    (trace_lines invA) (fault_message locA) locA
    (by decide) (by decide) (by decide) (by decide) (by decide)

/-- C4 (amended): an envelope whose operations are all non-invocations
dispatches without error; `InvokeHostFunction` operations of another
host-function kind are recorded with a skip line, while operations of
any other body are passed over silently, with no log line at all. -/
theorem c4_non_invoke_ops_skipped (request : SimulationRequest) (ext : Ext)
    (bs : List Nat) (env : TransactionEnvelope) (n : Nat)
    (hb : ext.b64decode request.envelope_xdr = .ok bs)
    (he : ext.envelope_from_xdr bs = .ok env)
    (hm : decode_result_meta ext request.result_meta_xdr = .ok ())
    (hl : load_ledger_entries ext 0 (request.ledger_entries.getD []) = .ok n)
    (hnoinv : ∀ op ∈ extract_operations env, is_invoke_contract_op op = false) :
    simulate request ext =
      { status := "success"
        error := none
        events :=
          match ext.get_events with
          | .ok evs => evs
          | .error e => ["Failed to retrieve events: " ++ e]
        logs :=
          ("Host Initialized with Budget: " ++ ext.budget_debug) ::
            ("Loaded " ++ toString n ++ " Ledger Entries") ::
              (extract_operations env).filterMap skip_line
        source_location := none } := by
  have hd := dispatch_ops_no_invoke (init_source_mapper ext request.contract_wasm)
    (extract_operations env) [] hnoinv
  rw [simulate_eq_decoded request ext bs env hb he hm,
      simulate_decoded_success ext request env n _ hl (by simpa using hd)]

/-- C4 counterexample: a Payment operation is not an `InvokeContract`
invocation, yet the emitted logs contain no record of it being skipped -
non-`InvokeHostFunction` operations are ignored silently. -/
theorem c4_counterexample_payment_not_recorded :
    extract_operations envPay = [opPayment] ∧
    is_invoke_contract_op opPayment = false ∧
    (simulate reqPay extA).status = "success" ∧
    (simulate reqPay extA).logs =
      ["Host Initialized with Budget: Budget", "Loaded 0 Ledger Entries"] := by
  decide

/-- Witness for C4 at a concrete envelope holding a Payment operation and
a non-invoke host-function operation: only the latter gets a skip line,
and the run succeeds. -/
theorem c4_witness :
    simulate reqMixed extA =
      { status := "success", error := none, events := [],
        logs := ["Host Initialized with Budget: Budget", "Loaded 0 Ledger Entries",
                 "Skipping non-InvokeContract Host Function"],
        source_location := none } :=
  (c4_non_invoke_ops_skipped reqMixed extA (bytes_of "envMixed") envMixed 0
      (by decide) (by decide) (by decide) (by decide) (by decide)).trans (by decide)

/-- C5: a decode failure of any single ledger (key, entry) pair aborts
the whole build - no later pair is examined - and that pair's own error
message becomes the response error, with empty events and logs (entries
are never injected into storage, so no partial snapshot is consumed). -/
theorem c5_ledger_fail_fast (request : SimulationRequest) (ext : Ext)
    (bs : List Nat) (env : TransactionEnvelope)
    (good rest : List (String × String)) (p : String × String) (msg : String)
    (hb : ext.b64decode request.envelope_xdr = .ok bs)
    (he : ext.envelope_from_xdr bs = .ok env)
    (hm : decode_result_meta ext request.result_meta_xdr = .ok ())
    (hentries : request.ledger_entries = some (good ++ p :: rest))
    (hgood : ∀ q ∈ good, decode_pair ext q = .ok ())
    (hbad : decode_pair ext p = .error msg) :
    simulate request ext = send_error msg := by
  have hl : load_ledger_entries ext 0 (request.ledger_entries.getD []) = .error msg := by
    rw [hentries]
    show load_ledger_entries ext 0 (good ++ p :: rest) = .error msg
    rw [load_ledger_entries_ok_skip ext good 0 (p :: rest) hgood]
    simp only [load_ledger_entries, hbad]
  rw [simulate_eq_decoded request ext bs env hb he hm]
  exact simulate_decoded_ledger_error ext request env msg hl

/-- Witness for C5: with a well-formed first pair and a bad second pair,
the run aborts with the second pair's ledger-key base64 error. -/
theorem c5_witness :
    simulate reqBadKey extA =
      send_error "Failed to decode LedgerKey Base64: Invalid symbol 33, offset 0." :=
  c5_ledger_fail_fast reqBadKey extA (bytes_of "envZero") envZero
    [("key1", "entry1")] [] ("!!!", "entry1") _
    (by decide) (by decide) (by decide) (by decide) (by decide) (by decide)

/-- C6: a request whose envelope holds zero operations, with empty result
meta, no ledger entries and no module, and whose fresh host reports no
events, succeeds with empty events and logs consisting of exactly the
host-initialization line and the zero-entry count line. -/
theorem c6_empty_request_success (request : SimulationRequest) (ext : Ext)
    (bs : List Nat) (env : TransactionEnvelope)
    (hb : ext.b64decode request.envelope_xdr = .ok bs)
    (he : ext.envelope_from_xdr bs = .ok env)
    (hops : extract_operations env = [])
    (hmeta : request.result_meta_xdr = "")
    (hentries : request.ledger_entries = none)
    (hwasm : request.contract_wasm = none)
    (hev : ext.get_events = .ok []) :
    simulate request ext =
      { status := "success", error := none, events := [],
        logs := ["Host Initialized with Budget: " ++ ext.budget_debug,
                 "Loaded 0 Ledger Entries"],
        source_location := none } := by
  have hm : decode_result_meta ext request.result_meta_xdr = .ok () := by
    rw [hmeta]
    rfl
  have hl : load_ledger_entries ext 0 (request.ledger_entries.getD []) = .ok 0 := by
    rw [hentries]
    rfl
  have hd : dispatch_ops (init_source_mapper ext request.contract_wasm) []
      (extract_operations env) = .ok [] := by
    rw [hwasm, hops]
    rfl
  rw [simulate_eq_decoded request ext bs env hb he hm,
      simulate_decoded_success ext request env 0 [] hl hd, hev]
  rfl

/-- Witness for C6 at the concrete empty request. -/
theorem c6_witness :
    simulate reqZero extA =
      { status := "success", error := none, events := [],
        logs := ["Host Initialized with Budget: Budget", "Loaded 0 Ledger Entries"],
        source_location := none } :=
  (c6_empty_request_success reqZero extA (bytes_of "envZero") envZero
      (by decide) (by decide) (by decide) (by decide) (by decide) (by decide)
      (by decide)).trans (by decide)

/-- C7: the dispatched operation list comes from whichever envelope
variant is present, and a fee-bump envelope is unwrapped exactly one
level: its inner transaction is always a signed V1 envelope (the inner
union has no other constructor, so fee bumps cannot nest), and its
operations are the ones extracted. -/
theorem c7_envelope_variants :
    (∀ v1 : TransactionV1Envelope, extract_operations (.tx v1) = v1.tx.operations) ∧
    (∀ v0 : TransactionV0Envelope, extract_operations (.txV0 v0) = v0.tx.operations) ∧
    (∀ fb : FeeBumpTransactionEnvelope, ∃ inner : TransactionV1Envelope,
      fb.tx.inner_tx = .tx inner ∧
      extract_operations (.txFeeBump fb) = inner.tx.operations ∧
      extract_operations (.txFeeBump fb) = extract_operations (.tx inner)) := by
  refine ⟨fun v1 => rfl, fun v0 => rfl, fun fb => ?_⟩
  obtain ⟨⟨inner_tx⟩⟩ := fb
  cases inner_tx with
  | tx v1 => exact ⟨v1, rfl, rfl, rfl⟩

/-- C8 (amended): whenever stdin is read successfully, exactly one
response record is emitted; its status is the success or error string,
and when JSON parsing already failed, its events and logs are empty
sequences - present, not absent.  (A stdin read failure emits nothing,
see the counterexample.) -/
theorem c8_single_response (buffer : String) (ext : Ext) :
    run_main (.ok buffer) ext = some (process_buffer buffer ext) ∧
    ((process_buffer buffer ext).status = "success" ∨
      (process_buffer buffer ext).status = "error") ∧
    (∀ e, ext.parse_json buffer = .error e →
      (process_buffer buffer ext).events = [] ∧
        (process_buffer buffer ext).logs = []) := by
  refine ⟨rfl, ?_, ?_⟩
  · cases hp : ext.parse_json buffer with
    | error e =>
      have hs : (process_buffer buffer ext).status = "error" := by
        simp only [process_buffer, hp]
      exact .inr hs
    | ok req =>
      have hsim : process_buffer buffer ext = simulate req ext := by
        simp only [process_buffer, hp]
      rw [hsim]
      rcases simulate_shape req ext with ⟨h, -, -⟩ | ⟨h, -, -⟩
      · exact .inl h
      · exact .inr h
  · intro e hp
    have hev : (process_buffer buffer ext).events = [] := by
      simp only [process_buffer, hp]
    have hlg : (process_buffer buffer ext).logs = [] := by
      simp only [process_buffer, hp]
    exact ⟨hev, hlg⟩

/-- C8 counterexample: when reading stdin fails, `main` prints to stderr
and returns without emitting any response record at all
(`main.rs:46-49`). -/
theorem c8_counterexample_stdin_failure :
    run_main (.error "read failure") extA = none := by
  rfl

/-- Witness for C8 at a concrete malformed-JSON buffer. -/
theorem c8_witness :
    (process_buffer "not json" extA).events = [] ∧
    (process_buffer "not json" extA).logs = [] :=
  (c8_single_response "not json" extA).2.2 "expected value at line 1 column 1"
    (by decide)

/-- C9: every emitted response satisfies exactly one of success-with-no-
error or error-with-message, and a source location is attached only when
the status is error and the probe-offset resolution through the
initialized mapper succeeded. -/
theorem c9_response_invariant (buffer : String) (ext : Ext)
    (resp : SimulationResponse) (hresp : process_buffer buffer ext = resp) :
    (((resp.status = "success" ∧ resp.error = none) ∨
       (resp.status = "error" ∧ resp.error ≠ none)) ∧
     ¬((resp.status = "success" ∧ resp.error = none) ∧
       (resp.status = "error" ∧ resp.error ≠ none))) ∧
    (∀ loc, resp.source_location = some loc →
      resp.status = "error" ∧
      ∃ req table, ext.parse_json buffer = .ok req ∧
        init_source_mapper ext req.contract_wasm = some table ∧
        map_wasm_offset_to_source table 0x1234 = some loc) := by
  subst hresp
  cases hp : ext.parse_json buffer with
  | error e =>
    have hs : (process_buffer buffer ext).status = "error" := by
      simp only [process_buffer, hp]
    have herr : (process_buffer buffer ext).error = some ("Invalid JSON: " ++ e) := by
      simp only [process_buffer, hp]
    have hloc : (process_buffer buffer ext).source_location = none := by
      simp only [process_buffer, hp]
    refine ⟨⟨.inr ⟨hs, by rw [herr]; simp⟩, ?_⟩, ?_⟩
    · rintro ⟨⟨h1, -⟩, -⟩
      exact absurd (h1.symm.trans hs) (by decide)
    · intro loc h
      rw [hloc] at h
      exact absurd h (by simp)
  | ok req =>
    have hsim : process_buffer buffer ext = simulate req ext := by
      simp only [process_buffer, hp]
    rw [hsim]
    rcases simulate_shape req ext with ⟨hs, herr, hloc⟩ | ⟨hs, ⟨m, herr⟩, hloc⟩
    · refine ⟨⟨.inl ⟨hs, herr⟩, ?_⟩, ?_⟩
      · rintro ⟨-, ⟨h2, -⟩⟩
        exact absurd (hs.symm.trans h2) (by decide)
      · intro loc h
        rw [hloc] at h
        exact absurd h (by simp)
    · refine ⟨⟨.inr ⟨hs, by rw [herr]; simp⟩, ?_⟩, ?_⟩
      · rintro ⟨⟨h1, -⟩, -⟩
        exact absurd (h1.symm.trans hs) (by decide)
      · intro loc h
        rcases hloc with hnone | ⟨table, loc2, htab, hres, hsome⟩
        · rw [hnone] at h
          exact absurd h (by simp)
        · rw [hsome, Option.some.injEq] at h
          subst h
          exact ⟨hs, req, table, rfl, htab, hres⟩

/-- Witness for C9 at the concrete faulting request: the response is an
error and its attached location is the successful resolution of the
probe offset. -/
theorem c9_witness :
    (process_buffer "reqFault" extA).status = "error" ∧
    ∃ req table, extA.parse_json "reqFault" = .ok req ∧
      init_source_mapper extA req.contract_wasm = some table ∧
      map_wasm_offset_to_source table 0x1234 = some locA :=
  (c9_response_invariant "reqFault" extA (process_buffer "reqFault" extA) rfl).2
    locA (by decide)

/-- C10: once a request supplies a module whose mapper has debug symbols
and the envelope holds an `InvokeContract` operation, the response never
depends on the host's invoke capability (it is invariant under replacing
that capability), and the run errors exactly when the fixed probe offset
0x1234 resolves to a source location - otherwise it reports success. -/
theorem c10_fixed_probe (request : SimulationRequest) (ext : Ext)
    (f : String → String → List String → Except Nat Unit)
    (bs : List Nat) (env : TransactionEnvelope) (table : List SymbolRange)
    (n : Nat) (op : Operation)
    (hb : ext.b64decode request.envelope_xdr = .ok bs)
    (he : ext.envelope_from_xdr bs = .ok env)
    (hm : decode_result_meta ext request.result_meta_xdr = .ok ())
    (hl : load_ledger_entries ext 0 (request.ledger_entries.getD []) = .ok n)
    (hmap : init_source_mapper ext request.contract_wasm = some table)
    (hop : op ∈ extract_operations env)
    (hinv : is_invoke_contract_op op = true) :
    simulate request {ext with host_invoke := f} = simulate request ext ∧
    ((simulate request ext).status = "error" ↔
      (map_wasm_offset_to_source table 0x1234).isSome) := by
  refine ⟨simulate_host_invoke request ext f, ?_⟩
  rw [simulate_eq_decoded request ext bs env hb he hm]
  cases hr : map_wasm_offset_to_source table 0x1234 with
  | some loc =>
    obtain ⟨acc2, hd⟩ :=
      dispatch_ops_probe_error table (extract_operations env) [] loc
        ⟨op, hop, hinv⟩ hr
    rw [simulate_decoded_dispatch_error ext request env n acc2
          (fault_message loc) loc hl (by rw [hmap]; exact hd)]
    exact iff_of_true rfl rfl
  | none =>
    obtain ⟨ls, hd⟩ := dispatch_ops_probe_none table (extract_operations env) [] hr
    rw [simulate_decoded_success ext request env n ls hl (by rw [hmap]; exact hd)]
    refine iff_of_false ?_ ?_
    · intro h
      exact absurd (show ("success" : String) = "error" from h) (by decide)
    · intro h
      simp at h

/-- Witness for C10 at the concrete faulting request: swapping the host's
invoke capability leaves the response unchanged, and the run errors
because the probe offset resolves in `tableA`. -/
theorem c10_witness :
    simulate reqFault {extA with host_invoke := fun _ _ _ => .error 99} =
      simulate reqFault extA ∧
    (simulate reqFault extA).status = "error" :=
  have h := c10_fixed_probe reqFault extA (fun _ _ _ => .error 99)
    (bytes_of "envInvoke") envInvoke tableA 0 opInvoke
    (by decide) (by decide) (by decide) (by decide) (by decide) (by decide)
    (by decide)
  ⟨h.1, h.2.mpr (by decide)⟩

end Hintents
